import Mathlib

/-!
Shallow embedding of the glTF decoder of the `engine` repository
(`src/assets/gltf.rs`) together with the engine material type
(`src/renderer/material.rs`), and proofs of the decoder contract.

Modelling conventions:
* `f32` scalars are modelled as exact rationals (`Rat`); the arithmetic the
  decoder performs (`1 - roughness`, `32 * (1 - roughness) + 1`) is exact on
  the values of interest, so no rounding model is needed.
* The external `gltf` crate is opaque to this repository; a successfully
  imported document is modelled as the abstract structure `GDocument` whose
  fields are exactly what `load_gltf` reads through the crate API
  (materials with pbr factors, meshes with primitive attribute streams,
  nodes with decomposed transforms, the optional default scene).  A failed
  `gltf::import` is modelled as `Except.error msg`.
* Rust `Vec<T>` becomes `List T`, `Option<T>` becomes `Option T`,
  `u32`/`usize` index values become `Nat`.
-/

namespace Engine

/-- A `[f32; 3]` value (also `glam::Vec3`), as an exact rational triple. -/
abbrev Vec3f := Rat × Rat × Rat

/-- A `[f32; 2]` value, as an exact rational pair. -/
abbrev Vec2f := Rat × Rat

/-- A `[f32; 4]` value (also `glam::Quat`), as an exact rational quadruple. -/
abbrev Vec4f := Rat × Rat × Rat × Rat

/-- Modelled from the spec: the `Vertex` struct of `renderer/mesh.rs` (that
file is not part of the provided sources): position (3 floats), normal
(3 floats), UV (2 floats).  The field names are those used by the vertex
construction in `assets/gltf.rs` (lines 230-234). -/
structure Vertex where
  position : Vec3f
  normal : Vec3f
  uv : Vec2f
deriving DecidableEq, Inhabited

/-- Errors from glTF loading (`assets/gltf.rs` lines 15-23). -/
inductive GltfError where
  | IoError : String → GltfError
  | ParseError : String → GltfError
  | MissingData : String → GltfError
deriving DecidableEq

/-- Loaded primitive mesh data (`assets/gltf.rs` lines 38-46). -/
structure LoadedPrimitive where
  vertices : List Vertex
  indices : List Nat
  material_index : Option Nat
deriving DecidableEq, Inhabited

/-- Loaded mesh with primitives (`assets/gltf.rs` lines 49-55). -/
structure LoadedMesh where
  name : String
  primitives : List LoadedPrimitive
deriving DecidableEq, Inhabited

/-- Loaded material data (`assets/gltf.rs` lines 58-70). -/
structure LoadedMaterial where
  name : String
  base_color : Vec4f
  metallic : Rat
  roughness : Rat
  base_color_texture : Option String
deriving DecidableEq, Inhabited

/-- The engine material as declared at `renderer/material.rs` lines 41-49
(re-exported by `renderer/mod.rs` line 13).  Note that it has exactly the
three fields `color`, `specular`, `shininess` — it declares no
texture-presence field. -/
structure Material where
  color : Vec3f
  specular : Rat
  shininess : Rat
deriving DecidableEq

/-- The record literal that `LoadedMaterial::to_material` builds at
`assets/gltf.rs` lines 76-81.  It is declared as its own structure because
the literal initializes a `use_texture` field that the `Material` struct of
`renderer/material.rs` does not declare, so the literal does not type-check
against `Material` (rustc error E0560: struct has no field named
`use_texture`). -/
structure MaterialLit where
  color : Vec3f
  specular : Rat
  shininess : Rat
  use_texture : Bool
deriving DecidableEq

/-- Convert to engine material (`assets/gltf.rs` lines 75-82): the field
values computed by the body of `LoadedMaterial::to_material`. -/
def LoadedMaterial.to_material (m : LoadedMaterial) : MaterialLit :=
  { color := (m.base_color.1, m.base_color.2.1, m.base_color.2.2.1)
    specular := 1 - m.roughness
    shininess := 32 * (1 - m.roughness) + 1
    use_texture := m.base_color_texture.isSome }

/-- Loaded node in the scene hierarchy (`assets/gltf.rs` lines 86-100). -/
structure LoadedNode where
  name : String
  translation : Vec3f
  rotation : Vec4f
  scale : Vec3f
  mesh_index : Option Nat
  children : List Nat
deriving DecidableEq, Inhabited

/-- Complete loaded glTF scene (`assets/gltf.rs` lines 103-113). -/
structure LoadedGltf where
  meshes : List LoadedMesh
  materials : List LoadedMaterial
  nodes : List LoadedNode
  root_nodes : List Nat
deriving DecidableEq

/-- One source-document primitive as seen through the external reader
(`gltf::Primitive` plus its `reader`): the optional attribute streams
`read_positions`, `read_normals`, `read_tex_coords(0).into_f32`,
`read_indices.into_u32`, and `material().index()`.  Each stream, when
present, is the fully collected list. -/
structure GPrimitive where
  positions : Option (List Vec3f)
  normals : Option (List Vec3f)
  tex_coords0 : Option (List Vec2f)
  indices : Option (List Nat)
  material_index : Option Nat
deriving DecidableEq, Inhabited

/-- One source-document mesh (`gltf::Mesh`): optional name and primitives. -/
structure GMesh where
  name : Option String
  primitives : List GPrimitive
deriving DecidableEq, Inhabited

/-- One source-document material (`gltf::Material`): optional name, the pbr
metallic-roughness factors (defaults already applied by the external crate),
and the index of the bound base-color texture, if any. -/
structure GMaterial where
  name : Option String
  base_color_factor : Vec4f
  metallic_factor : Rat
  roughness_factor : Rat
  base_color_texture_index : Option Nat
deriving DecidableEq, Inhabited

/-- One source-document node (`gltf::Node`): optional name, the local
transform already decomposed into translation/rotation/scale by the external
`transform().decomposed()` call, the optional mesh index, and the child node
indices. -/
structure GNode where
  name : Option String
  translation : Vec3f
  rotation : Vec4f
  scale : Vec3f
  mesh_index : Option Nat
  children : List Nat
deriving DecidableEq, Inhabited

/-- A successfully imported source document: everything `load_gltf` reads
from the `gltf::Document` (with the binary buffers already resolved into the
attribute streams of the primitives), plus the member node indices of
the optional default scene (`document.default_scene()` then `scene.nodes()`). -/
structure GDocument where
  materials : List GMaterial
  meshes : List GMesh
  nodes : List GNode
  default_scene : Option (List Nat)
deriving DecidableEq, Inhabited

/-- Load a single primitive from a glTF mesh (`assets/gltf.rs` lines
204-251): positions are required (`?` on `read_positions`), normals default
to `(0, 1, 0)` per position, UVs default to `(0, 0)` per position, vertices
are built by zipping positions with normals and UVs, and indices default to
the sequential list `0 .. vertices.len()`. -/
def load_primitive (p : GPrimitive) : Option LoadedPrimitive :=
  match p.positions with
  | none => none
  | some positions =>
    let normals : List Vec3f :=
      p.normals.getD (List.replicate positions.length (0, 1, 0))
    let uvs : List Vec2f :=
      p.tex_coords0.getD (List.replicate positions.length (0, 0))
    let vertices : List Vertex :=
      ((positions.zip normals).zip uvs).map fun pnu =>
        { position := pnu.1.1, normal := pnu.1.2, uv := pnu.2 }
    let indices : List Nat := p.indices.getD (List.range vertices.length)
    some { vertices := vertices
           indices := indices
           material_index := p.material_index }

/-- Material extraction (`assets/gltf.rs` lines 127-141): name defaults to
"Unnamed", pbr factors are carried through, and a bound base-color texture
becomes the reference string `format!("texture_{}", index)`. -/
def load_material (mat : GMaterial) : LoadedMaterial :=
  { name := mat.name.getD "Unnamed"
    base_color := mat.base_color_factor
    metallic := mat.metallic_factor
    roughness := mat.roughness_factor
    base_color_texture :=
      mat.base_color_texture_index.map fun i => "texture_" ++ toString i }

/-- Mesh extraction (`assets/gltf.rs` lines 144-157): name defaults to
"Unnamed" and the primitives are the `filter_map` of `load_primitive` over
the source primitives. -/
def load_mesh (mesh : GMesh) : LoadedMesh :=
  { name := mesh.name.getD "Unnamed"
    primitives := mesh.primitives.filterMap load_primitive }

/-- Node extraction (`assets/gltf.rs` lines 160-173): name defaults to
"Node"; the decomposed transform, mesh index and child indices are carried
through. -/
def load_node (node : GNode) : LoadedNode :=
  { name := node.name.getD "Node"
    translation := node.translation
    rotation := node.rotation
    scale := node.scale
    mesh_index := node.mesh_index
    children := node.children }

/-- The inner marking loop of the root resolver (`assets/gltf.rs` lines
182-186): for each child index in bounds, set its `is_child` marker. -/
def markChildren (children : List Nat) (is_child : List Bool) : List Bool :=
  children.foldl
    (fun acc child_idx =>
      if child_idx < acc.length then acc.set child_idx true else acc)
    is_child

/-- The marker construction of the root resolver (`assets/gltf.rs` lines
180-187): start from `vec![false; nodes.len()]` and run the marking loop
over the children of every node. -/
def computeIsChild (nodes : List LoadedNode) : List Bool :=
  nodes.foldl (fun acc node => markChildren node.children acc)
    (List.replicate nodes.length false)

/-- The final filter of the root resolver (`assets/gltf.rs` lines 188-192):
keep the positions whose marker is still false. -/
def rootsOfIsChild (is_child : List Bool) : List Nat :=
  is_child.enum.filterMap fun p => if !p.2 then some p.1 else none

/-- Root resolution (`assets/gltf.rs` lines 176-193): the node list of the
default scene, verbatim, when present, otherwise elimination by child marking. -/
def rootNodes (nodes : List LoadedNode) (default_scene : Option (List Nat)) :
    List Nat :=
  match default_scene with
  | some sceneNodes => sceneNodes
  | none => rootsOfIsChild (computeIsChild nodes)

/-- The body of `load_gltf` after a successful import (`assets/gltf.rs`
lines 126-200): decode materials, meshes and nodes independently, resolve
the roots, and assemble the result. -/
def decodeDoc (document : GDocument) : LoadedGltf :=
  let materials : List LoadedMaterial := document.materials.map load_material
  let meshes : List LoadedMesh := document.meshes.map load_mesh
  let nodes : List LoadedNode := document.nodes.map load_node
  let root_nodes : List Nat := rootNodes nodes document.default_scene
  { meshes := meshes
    materials := materials
    nodes := nodes
    root_nodes := root_nodes }

/-- Load a glTF or GLB file (`assets/gltf.rs` lines 120-201): a failed
`gltf::import` is mapped to `GltfError::IoError` and aborts the decode; a
successful import is decoded by the body above, which cannot fail. -/
def load_gltf (imported : Except String GDocument) :
    Except GltfError LoadedGltf :=
  match imported with
  | .error e => .error (.IoError e)
  | .ok document => .ok (decodeDoc document)

/-! Helper lemmas about the list operations of the decoder. -/

/-- A `filter_map` is the map of the extraction function over the elements it
keeps. -/
lemma filterMap_eq_filter_map {α β : Type} [Inhabited β] (f : α → Option β)
    (l : List α) :
    l.filterMap f =
      (l.filter fun a => (f a).isSome).map fun a => (f a).getD default := by
  induction l with
  | nil => rfl
  | cons a l ih =>
      cases hfa : f a <;>
        simp [List.filterMap_cons, List.filter_cons, hfa, ih]

/-- A primitive decodes successfully exactly when its source has a position
attribute. -/
lemma load_primitive_isSome (p : GPrimitive) :
    (load_primitive p).isSome = p.positions.isSome := by
  cases hp : p.positions <;> simp [load_primitive, hp]

/-- When the source has no index data, the decoded index list is the
sequential range over the decoded vertex count. -/
lemma indices_of_no_source_indices (p : GPrimitive) (lp : LoadedPrimitive)
    (hi : p.indices = none) (h : load_primitive p = some lp) :
    lp.indices = List.range lp.vertices.length := by
  cases hp : p.positions with
  | none => simp [load_primitive, hp] at h
  | some pos =>
      simp only [load_primitive, hp, hi, Option.getD_none,
        Option.some.injEq] at h
      subst h
      rfl

/-- The marking loop preserves the length of the marker list. -/
lemma markChildren_length (cs : List Nat) (a : List Bool) :
    (markChildren cs a).length = a.length := by
  induction cs generalizing a with
  | nil => rfl
  | cons c cs ih =>
      show (markChildren cs (if c < a.length then a.set c true else a)).length
        = a.length
      rw [ih]
      split <;> simp

/-- Entry `i` after the marking loop: `true` whenever `i` is one of the
in-range children, otherwise unchanged. -/
lemma markChildren_getElem? (cs : List Nat) (a : List Bool) (i : Nat) :
    (markChildren cs a)[i]? =
      if i ∈ cs ∧ i < a.length then some true else a[i]? := by
  induction cs generalizing a with
  | nil => simp [markChildren]
  | cons c cs ih =>
      show (markChildren cs (if c < a.length then a.set c true else a))[i]? = _
      rw [ih]
      by_cases hc : c < a.length
      · simp only [hc, if_true, List.length_set, List.getElem?_set,
          List.mem_cons]
        by_cases hi : i < a.length
        · by_cases hm : i ∈ cs
          · simp [hm, hi]
          · by_cases hic : c = i
            · simp [hic, hm, hi]
            · simp [hm, hi, hic, Ne.symm hic]
        · have hci : ¬ c = i := by omega
          have hnone : a[i]? = none :=
            List.getElem?_eq_none (Nat.le_of_not_lt hi)
          simp [hi, hci, hnone]
      · simp only [hc, if_false, List.mem_cons]
        by_cases hic : i = c
        · subst hic
          simp [hc]
        · simp [hic]

/-- Entry `i` after marking the children of every node: `true` whenever some node
lists `i` as a child (in range), otherwise unchanged. -/
lemma foldMark_getElem? (ns : List LoadedNode) (a : List Bool) (i : Nat) :
    (ns.foldl (fun acc node => markChildren node.children acc) a)[i]? =
      if (∃ n ∈ ns, i ∈ n.children) ∧ i < a.length then some true
      else a[i]? := by
  induction ns generalizing a with
  | nil => simp
  | cons n ns ih =>
      show (ns.foldl (fun acc node => markChildren node.children acc)
        (markChildren n.children a))[i]? = _
      rw [ih, markChildren_getElem?, markChildren_length]
      simp only [List.exists_mem_cons_iff]
      by_cases hi : i < a.length
      · by_cases h1 : ∃ m ∈ ns, i ∈ m.children
        · simp [h1, hi]
        · by_cases h2 : i ∈ n.children <;> simp [h1, h2, hi]
      · simp [hi]

/-- The marker of node index `i` ends up `false` exactly when `i` is a valid
index that no node lists as a child. -/
lemma computeIsChild_eq_some_false (nodes : List LoadedNode) (i : Nat) :
    (computeIsChild nodes)[i]? = some false ↔
      i < nodes.length ∧ ∀ n ∈ nodes, i ∉ n.children := by
  rw [computeIsChild, foldMark_getElem?]
  simp only [List.length_replicate, List.getElem?_replicate]
  by_cases hi : i < nodes.length
  · by_cases h1 : ∃ n ∈ nodes, i ∈ n.children
    · simp [h1, hi]
    · push_neg at h1
      simp [hi, h1]
  · simp [hi]

/-- Membership in the root filter: position `i` is kept exactly when its
marker is `false`. -/
lemma mem_rootsOfIsChild (l : List Bool) (i : Nat) :
    i ∈ rootsOfIsChild l ↔ l[i]? = some false := by
  simp only [rootsOfIsChild, List.mem_filterMap]
  constructor
  · rintro ⟨⟨j, b⟩, hmem, hf⟩
    by_cases hb : b
    · simp [hb] at hf
    · rw [Bool.not_eq_true] at hb
      subst hb
      simp at hf
      subst hf
      exact List.mem_enum_iff_getElem?.1 hmem
  · intro h
    exact ⟨(i, false), List.mem_enum_iff_getElem?.2 h, by simp⟩

/-! Claim theorems. -/

/-- A source material with roughness `1/4` and no bound texture. -/
def roughnessQuarterMaterial : LoadedMaterial :=
  { name := "m"
    base_color := (1, 1, 1, 1)
    metallic := 0
    roughness := 1 / 4
    base_color_texture := none }

/-- C1: the record literal built by `LoadedMaterial::to_material` has
color equal to the RGB components of the base color (alpha dropped),
specular `1 - roughness`, shininess `32 * (1 - roughness) + 1`, and a
`use_texture` flag that is true iff `base_color_texture` is `Some`; at
roughness `1/4` this evaluates to specular `3/4` and shininess `25`.
(The literal is stated on `MaterialLit` because the `Material` struct of
`renderer/material.rs` declares no `use_texture` field, so the literal in
the source does not type-check against it.) -/
theorem to_material_conversion (m : LoadedMaterial) :
    m.to_material.color
        = (m.base_color.1, m.base_color.2.1, m.base_color.2.2.1) ∧
    m.to_material.specular = 1 - m.roughness ∧
    m.to_material.shininess = 32 * (1 - m.roughness) + 1 ∧
    (m.to_material.use_texture = true ↔ m.base_color_texture.isSome = true) ∧
    roughnessQuarterMaterial.to_material.specular = 3 / 4 ∧
    roughnessQuarterMaterial.to_material.shininess = 25 :=
  ⟨rfl, rfl, rfl, Iff.rfl,
   by norm_num [LoadedMaterial.to_material, roughnessQuarterMaterial],
   by norm_num [LoadedMaterial.to_material, roughnessQuarterMaterial]⟩

/-- A source primitive with a single position and a source-supplied index
value `5`, far out of range of its one-element vertex list. -/
def oneVertexPrim : GPrimitive :=
  { positions := some [(0, 0, 0)]
    normals := none
    tex_coords0 := none
    indices := some [5]
    material_index := none }

/-- C2 counterexample: a primitive whose source supplies the index list
`[5]` over a single decoded vertex decodes successfully, with a non-empty
index list whose value is not below the vertex count — source-supplied
indices are passed through unvalidated. -/
theorem source_indices_unchecked_cex :
    ∃ lp, load_primitive oneVertexPrim = some lp ∧ lp.indices ≠ [] ∧
      ¬(∀ i ∈ lp.indices, i < lp.vertices.length) :=
  ⟨{ vertices := [{ position := (0, 0, 0), normal := (0, 1, 0), uv := (0, 0) }]
     indices := [5]
     material_index := none },
   by decide, by decide, by decide⟩

/-- C2 (amended): when the index list was synthesized (the source primitive
has no index data), every value in a non-empty index list is strictly below
the vertex count. -/
theorem synthesized_indices_in_bounds (p : GPrimitive) (lp : LoadedPrimitive)
    (hi : p.indices = none) (h : load_primitive p = some lp)
    (_hne : lp.indices ≠ []) :
    ∀ i ∈ lp.indices, i < lp.vertices.length := by
  rw [indices_of_no_source_indices p lp hi h]
  intro i hmem
  exact List.mem_range.1 hmem

/-- A source primitive with two positions and no index data. -/
def twoVertexPrim : GPrimitive :=
  { positions := some [(0, 0, 0), (1, 0, 0)]
    normals := none
    tex_coords0 := none
    indices := none
    material_index := none }

/-- The decode of `twoVertexPrim`. -/
def twoVertexLoaded : LoadedPrimitive :=
  { vertices :=
      [{ position := (0, 0, 0), normal := (0, 1, 0), uv := (0, 0) },
       { position := (1, 0, 0), normal := (0, 1, 0), uv := (0, 0) }]
    indices := [0, 1]
    material_index := none }

/-- Witness for C2 (amended) at `twoVertexPrim` and index `0`. -/
theorem synthesized_indices_in_bounds_wit :
    (0 : Nat) < twoVertexLoaded.vertices.length :=
  synthesized_indices_in_bounds twoVertexPrim twoVertexLoaded rfl (by decide)
    (by decide) 0 (by decide)

/-- C4: with a default scene declared, the root set is the member node list
of the scene, verbatim, independent of all child lists. -/
theorem root_nodes_with_default_scene (d : GDocument) (s : List Nat)
    (h : d.default_scene = some s) : (decodeDoc d).root_nodes = s := by
  simp [decodeDoc, rootNodes, h]

/-- A plain node with the given children. -/
def plainNode (cs : List Nat) : GNode :=
  { name := none
    translation := (0, 0, 0)
    rotation := (0, 0, 0, 1)
    scale := (1, 1, 1)
    mesh_index := none
    children := cs }

/-- A document whose default scene lists nodes `{2, 5}` although node 0
also references node 2 and node 5 as children. -/
def sceneDoc : GDocument :=
  { materials := []
    meshes := []
    nodes := [plainNode [2, 5], plainNode [], plainNode [], plainNode [],
      plainNode [], plainNode []]
    default_scene := some [2, 5] }

/-- Witness for C4: the default scene `{2, 5}` is the root set verbatim. -/
theorem root_nodes_with_default_scene_wit :
    (decodeDoc sceneDoc).root_nodes = [2, 5] :=
  root_nodes_with_default_scene sceneDoc [2, 5] rfl

/-- C6: a failed import maps to `IoError` with no result value, and every
error `load_gltf` returns is an `IoError` arising from the import — the
extraction paths never produce `ParseError` or `MissingData`. -/
theorem decode_error_policy :
    (∀ e, load_gltf (.error e) = .error (.IoError e)) ∧
    (∀ imported err, load_gltf imported = .error err →
      ∃ msg, imported = .error msg ∧ err = .IoError msg) := by
  refine ⟨fun e => rfl, ?_⟩
  intro imported err h
  cases imported with
  | error e => exact ⟨e, rfl, (Except.error.inj h).symm⟩
  | ok d => simp [load_gltf] at h

/-- Witness for C6 at a concrete failed import. -/
theorem decode_error_policy_wit :
    load_gltf (.error "no such file") = .error (.IoError "no such file") ∧
    ∃ msg, (Except.error "no such file" : Except String GDocument)
        = .error msg ∧
      GltfError.IoError "no such file" = .IoError msg :=
  ⟨decode_error_policy.1 "no such file",
   decode_error_policy.2 (.error "no such file") (.IoError "no such file")
     (decode_error_policy.1 "no such file")⟩

/-- C8: when the source primitive has positions but no index data, the
decoded index list is `[0, 1, ..., vertex_count - 1]` in increasing order. -/
theorem synthesized_indices_sequential (p : GPrimitive) (lp : LoadedPrimitive)
    (hi : p.indices = none) (h : load_primitive p = some lp) :
    lp.indices = List.range lp.vertices.length :=
  indices_of_no_source_indices p lp hi h

/-- A source primitive with three positions, normals supplied, no UVs, no
indices. -/
def seqPrim : GPrimitive :=
  { positions := some [(0, 0, 0), (0, 0, 1), (0, 1, 0)]
    normals := some [(1, 0, 0), (1, 0, 0), (1, 0, 0)]
    tex_coords0 := none
    indices := none
    material_index := some 2 }

/-- The decode of `seqPrim`. -/
def seqLoaded : LoadedPrimitive :=
  { vertices :=
      [{ position := (0, 0, 0), normal := (1, 0, 0), uv := (0, 0) },
       { position := (0, 0, 1), normal := (1, 0, 0), uv := (0, 0) },
       { position := (0, 1, 0), normal := (1, 0, 0), uv := (0, 0) }]
    indices := [0, 1, 2]
    material_index := some 2 }

/-- Witness for C8 at `seqPrim`. -/
theorem synthesized_indices_sequential_wit :
    seqLoaded.indices = List.range seqLoaded.vertices.length :=
  synthesized_indices_sequential seqPrim seqLoaded rfl (by decide)

/-- C9: decoding is deterministic — on equal import results the whole
outputs agree, and on equal documents the decoded scenes agree field for
field; `decodeDoc` is a pure function of the document alone. -/
theorem decode_deterministic (i1 i2 : Except String GDocument)
    (d1 d2 : GDocument) (h : i1 = i2) (hd : d1 = d2) :
    load_gltf i1 = load_gltf i2 ∧
    (decodeDoc d1).meshes = (decodeDoc d2).meshes ∧
    (decodeDoc d1).materials = (decodeDoc d2).materials ∧
    (decodeDoc d1).nodes = (decodeDoc d2).nodes ∧
    (decodeDoc d1).root_nodes = (decodeDoc d2).root_nodes := by
  subst h
  subst hd
  exact ⟨rfl, rfl, rfl, rfl, rfl⟩

/-- The empty document. -/
def emptyDoc : GDocument :=
  { materials := [], meshes := [], nodes := [], default_scene := none }

/-- Witness for C9 at the empty document. -/
theorem decode_deterministic_wit :
    load_gltf (.ok emptyDoc) = load_gltf (.ok emptyDoc) ∧
    (decodeDoc emptyDoc).meshes = (decodeDoc emptyDoc).meshes ∧
    (decodeDoc emptyDoc).materials = (decodeDoc emptyDoc).materials ∧
    (decodeDoc emptyDoc).nodes = (decodeDoc emptyDoc).nodes ∧
    (decodeDoc emptyDoc).root_nodes = (decodeDoc emptyDoc).root_nodes :=
  decode_deterministic (.ok emptyDoc) (.ok emptyDoc) emptyDoc emptyDoc rfl rfl

/-- C3: without a default scene, a node index is a root exactly when it is a
valid index that no node lists among its children; out-of-range child
indices are ignored by the marking and cannot make any index a non-root. -/
theorem root_nodes_without_default_scene (d : GDocument)
    (h : d.default_scene = none) (i : Nat) :
    i ∈ (decodeDoc d).root_nodes ↔
      i < d.nodes.length ∧ ∀ n ∈ d.nodes, i ∉ n.children := by
  have hroot : (decodeDoc d).root_nodes
      = rootsOfIsChild (computeIsChild (d.nodes.map load_node)) := by
    simp [decodeDoc, rootNodes, h]
  rw [hroot, mem_rootsOfIsChild, computeIsChild_eq_some_false]
  simp [load_node, List.mem_map]

/-- A document with four nodes `0..4`, node 0 having children `[1, 2]` and
node 3 having children `[2]`, and no default scene. -/
def rootsDoc : GDocument :=
  { materials := []
    meshes := []
    nodes := [plainNode [1, 2], plainNode [], plainNode [], plainNode [2]]
    default_scene := none }

/-- Witness for C3: on `rootsDoc` the root set is exactly `{0, 3}`, and
index 0 is a root by the characterization. -/
theorem root_nodes_without_default_scene_wit :
    0 ∈ (decodeDoc rootsDoc).root_nodes ∧
    (decodeDoc rootsDoc).root_nodes = [0, 3] :=
  ⟨(root_nodes_without_default_scene rootsDoc rfl 0).mpr
      ⟨by decide, by decide⟩,
   by decide⟩

/-- C5: decoding emits exactly one mesh per source mesh (never dropping a
mesh, even with zero decodable primitives), and the primitive list of
each decoded mesh is the in-order decode of exactly those source primitives
that have a position attribute. -/
theorem meshes_keep_positional_primitives (d : GDocument) :
    (decodeDoc d).meshes.length = d.meshes.length ∧
    (decodeDoc d).meshes.map (fun m => m.primitives)
      = d.meshes.map (fun mesh =>
          (mesh.primitives.filter fun p => p.positions.isSome).map
            fun p => (load_primitive p).getD default) ∧
    ∀ p : GPrimitive,
      (load_primitive p).isSome = true ↔ p.positions.isSome = true := by
  refine ⟨by simp [decodeDoc], ?_, fun p => by rw [load_primitive_isSome]⟩
  simp only [decodeDoc, List.map_map]
  refine List.map_congr_left fun mesh _ => ?_
  show (load_mesh mesh).primitives = _
  rw [show (load_mesh mesh).primitives
      = mesh.primitives.filterMap load_primitive from rfl]
  rw [filterMap_eq_filter_map]
  simp only [load_primitive_isSome]

/-- C7: when the source primitive has positions but no normal attribute,
every decoded vertex carries the synthesized normal `(0, 1, 0)`. -/
theorem default_normal_up (p : GPrimitive) (lp : LoadedPrimitive)
    (hn : p.normals = none) (h : load_primitive p = some lp) :
    ∀ v ∈ lp.vertices, v.normal = ((0 : Rat), (1 : Rat), (0 : Rat)) := by
  cases hp : p.positions with
  | none => simp [load_primitive, hp] at h
  | some pos =>
      simp only [load_primitive, hp, hn, Option.getD_none,
        Option.some.injEq] at h
      subst h
      intro v hv
      simp only [List.mem_map] at hv
      obtain ⟨⟨⟨a, b⟩, c⟩, hmem, rfl⟩ := hv
      exact List.eq_of_mem_replicate
        (List.of_mem_zip (List.of_mem_zip hmem).1).2

/-- A source primitive with one position, a UV stream, an index stream, and
no normals. -/
def noNormalsPrim : GPrimitive :=
  { positions := some [(2, 3, 4)]
    normals := none
    tex_coords0 := some [(1, 1)]
    indices := some [0]
    material_index := none }

/-- The single vertex decoded from `noNormalsPrim`. -/
def upVertex : Vertex :=
  { position := (2, 3, 4), normal := (0, 1, 0), uv := (1, 1) }

/-- The decode of `noNormalsPrim`. -/
def noNormalsLoaded : LoadedPrimitive :=
  { vertices := [upVertex], indices := [0], material_index := none }

/-- Witness for C7 at `noNormalsPrim` and its single vertex. -/
theorem default_normal_up_wit :
    upVertex.normal = ((0 : Rat), (1 : Rat), (0 : Rat)) :=
  default_normal_up noNormalsPrim noNormalsLoaded rfl (by decide) upVertex
    (by decide)

/-- C10: the decoded vertex count is the minimum of the lengths of the
position stream and of the normal and UV lists actually read or
synthesized (zip semantics: a shorter read stream silently truncates the
extra positions). -/
theorem vertex_count_zip_min (p : GPrimitive) (pos : List Vec3f)
    (lp : LoadedPrimitive) (hp : p.positions = some pos)
    (h : load_primitive p = some lp) :
    lp.vertices.length =
      min pos.length
        (min (p.normals.getD (List.replicate pos.length (0, 1, 0))).length
          ((p.tex_coords0.getD (List.replicate pos.length (0, 0))).length)) := by
  simp only [load_primitive, hp, Option.some.injEq] at h
  subst h
  simp [List.length_zip, Nat.min_assoc]

/-- Three positions, for a primitive whose normals stream is shorter. -/
def shortPos : List Vec3f := [(0, 0, 0), (1, 0, 0), (2, 0, 0)]

/-- A source primitive with three positions but only two normals. -/
def shortNormalsPrim : GPrimitive :=
  { positions := some shortPos
    normals := some [(0, 1, 0), (0, 1, 0)]
    tex_coords0 := none
    indices := none
    material_index := none }

/-- The decode of `shortNormalsPrim`: the third position is truncated. -/
def shortNormalsLoaded : LoadedPrimitive :=
  { vertices :=
      [{ position := (0, 0, 0), normal := (0, 1, 0), uv := (0, 0) },
       { position := (1, 0, 0), normal := (0, 1, 0), uv := (0, 0) }]
    indices := [0, 1]
    material_index := none }

/-- Witness for C10 at `shortNormalsPrim`: two vertices out of three
positions. -/
theorem vertex_count_zip_min_wit :
    shortNormalsLoaded.vertices.length =
      min shortPos.length
        (min (shortNormalsPrim.normals.getD
            (List.replicate shortPos.length (0, 1, 0))).length
          ((shortNormalsPrim.tex_coords0.getD
            (List.replicate shortPos.length (0, 0))).length)) :=
  vertex_count_zip_min shortNormalsPrim shortPos shortNormalsLoaded rfl
    (by decide)

end Engine
